import Mathlib

/-!
Shallow embedding of the whisp one-time-secret service (src/app/main.py).

The HTTP layer, rate limiting, templates and CORS are adapters outside the
core (spec section 1); we embed the lifecycle engine: `create_whisp`,
`get_whisp`, `get_whisp_file`, `cleanup_expired_whisps`, `delete_file`.

Modelling decisions, each tied to the source:
* Time is an integer number of minutes; `datetime.utcnow()` becomes an
  explicit `now` argument and `timedelta(minutes=ttl)` becomes `+ ttl`.
* The database is a list of rows; `select ... where id == whisp_id` …
  `.first()` is `List.find?` on the id, `db.delete(whisp)` removes the rows
  with that id, and a commit is implicit in returning the new state.
* The blob store is an association list from path to `Blob`.  `os.path.exists`
  is key membership, `os.remove` erases the key, opening a file for writing
  creates or truncates the entry.
* Fernet (an authenticated-encryption library, external to the repo) is
  modelled by the inductive `Blob`: `Blob.cipher k d` is a valid token for
  key `k` carrying plaintext `d`; any other value fails authentication under
  `k` (`fernetDecrypt` returns `none`, the model of the `InvalidToken`
  exception).  `blobRawBytes` gives the on-disk byte view used when the
  code serves a file without decrypting.
* The stored `encrypted_payload` column is modelled by `Payload`:
  `Payload.raw s` is a string on which `json.loads` fails (the client text
  case), `Payload.meta fn k` is a JSON object with optional "filename" and
  "key" fields (the shape `json.dumps` produces at create, plus the legacy
  shapes the fetch code tolerates).
* `uuid.uuid4()` and `Fernet.generate_key()` become explicit `whisp_id` /
  `key` arguments supplied by the caller.
* Each operation returns `Except Err r × St`: the verdict sent to the caller
  together with the state after the call (error paths can mutate state, e.g.
  the self-heal branch of `get_whisp_file`).
-/

/-- Byte strings, as lists of byte values. -/
abbrev Bytes := List Nat

/-- On-disk content of a stored file.  `cipher k d` is a well-formed Fernet
token produced with key `k` from plaintext `d`; `plain d` is any byte string
that is not a Fernet token (legacy plaintext, or a tampered/corrupt blob). -/
inductive Blob where
  | cipher (key : Nat) (data : Bytes)
  | plain (data : Bytes)
  deriving DecidableEq, Repr

/-- `Fernet(key).encrypt(data)` — authenticated encryption. -/
def fernetEncrypt (key : Nat) (data : Bytes) : Blob := .cipher key data

/-- `Fernet(key).decrypt(blob)` — returns the plaintext when the token
authenticates under `key`, otherwise `none` (the `InvalidToken` exception:
wrong key, tampered or non-Fernet bytes). -/
def fernetDecrypt (key : Nat) (b : Blob) : Option Bytes :=
  match b with
  | .cipher k d => if k = key then some d else none
  | .plain _ => none

/-- The raw bytes read from disk when the code opens the blob without
decrypting (`await buffer.read()` in the no-key branch). -/
def blobRawBytes : Blob → Bytes
  | .cipher k d => k :: d
  | .plain d => d

/-- The `encrypted_payload` column, classified by what `json.loads` does to
it: `raw s` is a string that does not parse as a JSON object (the except
branch fires); `meta fn k` is a JSON object whose `.get` of "filename" and
"key" yields `fn` and `k`. -/
inductive Payload where
  | raw (s : String)
  | meta (filename : Option String) (key : Option Nat)
  deriving DecidableEq, Repr

/-- One row of the whisp table (app.db.models.Whisp as used by main.py). -/
structure Whisp where
  id : String
  encrypted_payload : Payload
  is_file : Bool
  file_path : Option String
  password_hash : Option String
  expires_at : Int
  deriving DecidableEq, Repr

/-- Server state: the database table plus the blob storage directory. -/
structure St where
  db : List Whisp
  fs : List (String × Blob)
  deriving DecidableEq, Repr

/-- `select(Whisp).where(Whisp.id == whisp_id)` … `.scalars().first()`. -/
def dbLookup (db : List Whisp) (whisp_id : String) : Option Whisp :=
  db.find? (fun w => w.id = whisp_id)

/-- `db.delete(whisp)` for the row(s) with this id. -/
def dbDelete (db : List Whisp) (whisp_id : String) : List Whisp :=
  db.filter (fun w => w.id ≠ whisp_id)

/-- Read the blob stored at `path`, if any. -/
def fsLookup (fs : List (String × Blob)) (path : String) : Option Blob :=
  (fs.find? (fun e => e.fst = path)).map (·.snd)

/-- `os.path.exists(path)`. -/
def fsExists (fs : List (String × Blob)) (path : String) : Bool :=
  (fsLookup fs path).isSome

/-- `os.remove(path)` (also the net effect of `delete_file`, which checks
existence first, so removal is idempotent). -/
def fsRemove (fs : List (String × Blob)) (path : String) : List (String × Blob) :=
  fs.filter (fun e => e.fst ≠ path)

/-- Opening `path` with mode "wb" and writing `b`: creates or truncates. -/
def fsWrite (fs : List (String × Blob)) (path : String) (b : Blob) :
    List (String × Blob) :=
  (path, b) :: fsRemove fs path

/-- Modelled from the spec: app/core/security.py is not under src/.  Spec
section 4.3 gives the Credential Guard contract — `hash(passphrase)` one-way,
`verify(passphrase, hash)` true exactly for the matching passphrase.  We
model the hash by the passphrase itself, which realises the contract
`verify p (hash q) = (p = q)` (collisions ignored). -/
def get_password_hash (p : String) : String := p

/-- Modelled from the spec: verification side of the Credential Guard
contract (see `get_password_hash`). -/
def verify_password (p h : String) : Bool := p = h

/-- The error taxonomy of the caller-visible failures (spec section 7),
mapped from the HTTP statuses main.py raises: 400 on bad TTL, 413 on an
oversized upload, 404, 401, the propagated `InvalidToken` on decryption
failure (a 500-class response), and the generic 500 of the upload handler. -/
inductive Err where
  | InvalidTTL
  | PayloadTooLarge
  | NotFound
  | Unauthorized
  | DecryptionError
  | InternalError
  deriving DecidableEq, Repr

/-- `STORAGE_DIR` (default of the environment lookup). -/
def STORAGE_DIR : String := "/app/data/storage"

/-- `MAX_FILE_SIZE` (default 10 MiB). -/
def MAX_FILE_SIZE : Nat := 10 * 1024 * 1024

/-- `os.path.basename` on POSIX: the suffix after the last path separator.
Implemented as a fold that restarts at every slash. -/
def basenameAux (l : List Char) : List Char :=
  l.foldl (fun acc c => if c = '/' then [] else acc ++ [c]) []

/-- `os.path.basename(s)`. -/
def basename (s : String) : String := ⟨basenameAux s.data⟩

/-- `os.path.basename(file.filename or "unnamed")` — Python treats both
`None` and the empty string as missing. -/
def safeFilename (filename : Option String) : String :=
  basename (match filename with
    | none => "unnamed"
    | some s => if s = "" then "unnamed" else s)

/-- The final path component `whisp_id_safe_filename.enc` of the blob. -/
def blobName (whisp_id : String) (filename : Option String) : String :=
  whisp_id ++ "_" ++ safeFilename filename ++ ".enc"

/-- `os.path.join(STORAGE_DIR, whisp_id_safe_filename.enc)`. -/
def blobPathFor (whisp_id : String) (filename : Option String) : String :=
  STORAGE_DIR ++ "/" ++ blobName whisp_id filename

/-- A file upload: the client-supplied filename and the content bytes. -/
structure FileUpload where
  filename : Option String
  content : Bytes
  deriving DecidableEq, Repr

/-- `password_hash` computed at create: `if password:` is false for both
`None` and the empty string. -/
def hashOpt (password : Option String) : Option String :=
  match password with
  | none => none
  | some p => if p = "" then none else some (get_password_hash p)

/-- POST /api/whisps — `create_whisp`.  `now`, `whisp_id` (the fresh uuid4)
and `key` (the fresh Fernet key) are explicit arguments.  In the file branch
the first streaming loop only opens the file (creating it empty) and counts
the size — it writes nothing; on overflow it removes the partial file and
raises 413; otherwise the full content is re-read, size-checked again,
encrypted and written.  The scheduled background `cleanup_expired_whisps`
is modelled separately. -/
def create_whisp (now : Int) (whisp_id : String) (key : Nat)
    (encrypted_payload : String) (ttl_minutes : Int)
    (password : Option String) (file : Option FileUpload)
    (st : St) : Except Err Whisp × St :=
  if ttl_minutes < 1 ∨ ttl_minutes > 10080 then
    (.error .InvalidTTL, st)
  else
    let expires_at := now + ttl_minutes
    let password_hash := hashOpt password
    match file with
    | none =>
      let w : Whisp :=
        ⟨whisp_id, .raw encrypted_payload, false, none, password_hash, expires_at⟩
      (.ok w, ⟨w :: st.db, st.fs⟩)
    | some f =>
      let file_path := blobPathFor whisp_id f.filename
      let final_payload : Payload := .meta (some encrypted_payload) (some key)
      let fs1 := fsWrite st.fs file_path (.plain [])
      if f.content.length > MAX_FILE_SIZE then
        (.error .PayloadTooLarge, ⟨st.db, fsRemove fs1 file_path⟩)
      else
        let fs2 := fsWrite fs1 file_path (fernetEncrypt key f.content)
        let w : Whisp :=
          ⟨whisp_id, final_payload, true, some file_path, password_hash, expires_at⟩
        (.ok w, ⟨w :: st.db, fs2⟩)

/-- Modelled from the spec: app/api/schemas.py is not under src/.  The spec
says FetchMetadata "returns the same text" and the create response carries
"id, expiry, is_file flag" and never the password hash; `WhispRead` therefore
exposes id, payload, is_file and expires_at. -/
structure WhispRead where
  id : String
  encrypted_payload : Payload
  is_file : Bool
  expires_at : Int
  deriving DecidableEq, Repr

/-- `schemas.WhispRead.model_validate(whisp)`. -/
def whispRead (w : Whisp) : WhispRead :=
  ⟨w.id, w.encrypted_payload, w.is_file, w.expires_at⟩

/-- The password gate shared by both fetch endpoints:
`if whisp.password_hash: if not password or not verify_password(...)` —
`not password` is true for `None` and for the empty string. -/
def passwordGateFails (hash : Option String) (password : Option String) : Bool :=
  match hash with
  | none => false
  | some h =>
    match password with
    | none => true
    | some p => p = "" || ! verify_password p h

/-- GET /api/whisps/id — `get_whisp` (FetchMetadata).  Missing or expired
rows are 404; then the password gate; text whisps are deleted (together with
any stray blob) before the data is returned, file whisps are returned
without any mutation. -/
def get_whisp (now : Int) (whisp_id : String) (password : Option String)
    (st : St) : Except Err WhispRead × St :=
  match dbLookup st.db whisp_id with
  | none => (.error .NotFound, st)
  | some w =>
    if w.expires_at < now then
      (.error .NotFound, st)
    else if passwordGateFails w.password_hash password then
      (.error .Unauthorized, st)
    else
      let data := whispRead w
      if w.is_file then
        (.ok data, st)
      else
        let fs1 :=
          match w.file_path with
          | some p => if fsExists st.fs p then fsRemove st.fs p else st.fs
          | none => st.fs
        (.ok data, ⟨dbDelete st.db whisp_id, fs1⟩)

/-- The response of a successful file download: body bytes and the
attachment filename of the Content-Disposition header. -/
structure FileResponse where
  content : Bytes
  filename : String
  deriving DecidableEq, Repr

/-- Python string interpolation of the filename into the header: `None`
renders as the string "None". -/
def headerFilename : Option String → String
  | some s => s
  | none => "None"

/-- GET /api/whisps/id/file — `get_whisp_file` (FetchFile).  404 when the
row is missing, is not a file, has no path, or is expired; self-heal (delete
the row, 404) when the blob is missing on disk; then the password gate; then
`json.loads` of the payload: with a "key" the blob is decrypted (the
`InvalidToken` exception on failure leaves the row in place), without one
the raw bytes are served; on success the row is deleted before the response
and `delete_file` on the blob is scheduled as a background task (modelled by
the separate `delete_file`). -/
def get_whisp_file (now : Int) (whisp_id : String) (password : Option String)
    (st : St) : Except Err FileResponse × St :=
  match dbLookup st.db whisp_id with
  | none => (.error .NotFound, st)
  | some w =>
    if ¬ w.is_file then
      (.error .NotFound, st)
    else
      match w.file_path with
      | none => (.error .NotFound, st)
      | some file_path =>
        if w.expires_at < now then
          (.error .NotFound, st)
        else
          match fsLookup st.fs file_path with
          | none =>
            (.error .NotFound, ⟨dbDelete st.db whisp_id, st.fs⟩)
          | some b =>
            if passwordGateFails w.password_hash password then
              (.error .Unauthorized, st)
            else
              match w.encrypted_payload with
              | .meta fn (some k) =>
                match fernetDecrypt k b with
                | some content =>
                  (.ok ⟨content, headerFilename fn⟩,
                    ⟨dbDelete st.db whisp_id, st.fs⟩)
                | none => (.error .DecryptionError, st)
              | .meta fn none =>
                (.ok ⟨blobRawBytes b, headerFilename fn⟩,
                  ⟨dbDelete st.db whisp_id, st.fs⟩)
              | .raw _ =>
                (.ok ⟨blobRawBytes b, "downloaded_file"⟩,
                  ⟨dbDelete st.db whisp_id, st.fs⟩)

/-- `cleanup_expired_whisps`: delete every row with `expires_at < now`. -/
def cleanup_expired_whisps (now : Int) (st : St) : St :=
  ⟨st.db.filter (fun w => ¬ w.expires_at < now), st.fs⟩

/-- `delete_file`: the background blob deletion scheduled by
`get_whisp_file` after the response. -/
def delete_file (path : String) (st : St) : St :=
  ⟨st.db, fsRemove st.fs path⟩

/-! ### Helper lemmas about the store operations -/

theorem dbLookup_cons_self (w : Whisp) (db : List Whisp) :
    dbLookup (w :: db) w.id = some w := by
  simp [dbLookup, List.find?]

theorem find?_filter_none {α : Type} (l : List α) (p q : α → Bool)
    (h : ∀ a, q a = true → p a = false) :
    List.find? q (l.filter p) = none := by
  induction l with
  | nil => rfl
  | cons a l ih =>
    by_cases hp : p a = true
    · have hq : q a = false := by
        cases hqa : q a
        · rfl
        · rw [h a hqa] at hp; cases hp
      simp [List.filter_cons, hp, List.find?_cons, hq, ih]
    · simp [List.filter_cons, hp, ih]

theorem find?_filter_of_imp {α : Type} (l : List α) (p q : α → Bool)
    (h : ∀ a, q a = true → p a = true) :
    List.find? q (l.filter p) = List.find? q l := by
  induction l with
  | nil => rfl
  | cons a l ih =>
    by_cases hp : p a = true
    · cases hqa : q a
      · simp [List.filter_cons, hp, List.find?_cons, hqa, ih]
      · simp [List.filter_cons, hp, List.find?_cons, hqa]
    · have hq : q a = false := by
        cases hqa : q a
        · rfl
        · rw [h a hqa] at hp; cases hp rfl
      simp [List.filter_cons, hp, List.find?_cons, hq, ih]

theorem dbLookup_dbDelete_self (db : List Whisp) (i : String) :
    dbLookup (dbDelete db i) i = none := by
  unfold dbLookup dbDelete
  rw [find?_filter_none]
  intro w hw
  simp at hw ⊢
  exact hw

theorem fsLookup_fsWrite_self (fs : List (String × Blob)) (p : String) (b : Blob) :
    fsLookup (fsWrite fs p b) p = some b := by
  simp [fsLookup, fsWrite, List.find?]

theorem fsLookup_fsRemove_self (fs : List (String × Blob)) (p : String) :
    fsLookup (fsRemove fs p) p = none := by
  unfold fsLookup fsRemove
  rw [find?_filter_none]
  · rfl
  · intro e he
    simp at he ⊢
    exact he

theorem fsLookup_fsRemove_ne (fs : List (String × Blob)) (p q : String)
    (h : q ≠ p) : fsLookup (fsRemove fs p) q = fsLookup fs q := by
  unfold fsLookup fsRemove
  rw [find?_filter_of_imp]
  intro e he
  simp at he ⊢
  rw [he]
  exact h

theorem fsRemove_fsWrite (fs : List (String × Blob)) (p : String) (b : Blob) :
    fsRemove (fsWrite fs p b) p = fsRemove fs p := by
  simp [fsRemove, fsWrite, List.filter_filter]

/-! ### C4 — TTL validation -/

/-- C4: Create fails `InvalidTTL` exactly when `ttl_minutes` lies outside
[1, 10080], and on that failure the state (rows and blobs) is untouched; for
every `ttl_minutes` in [1, 10080] (and an upload within the size limit, the
case claim C7 covers) Create succeeds and the returned `expires_at` is the
creation time plus `ttl_minutes` minutes. -/
theorem C4_create_ttl (now : Int) (wid : String) (key : Nat) (payload : String)
    (ttl : Int) (password : Option String) (file : Option FileUpload) (st : St)
    (hsize : ∀ f, file = some f → f.content.length ≤ MAX_FILE_SIZE) :
    ((ttl < 1 ∨ ttl > 10080) →
      create_whisp now wid key payload ttl password file st = (.error .InvalidTTL, st)) ∧
    (1 ≤ ttl → ttl ≤ 10080 →
      ∃ w st₁, create_whisp now wid key payload ttl password file st = (.ok w, st₁) ∧
        w.expires_at = now + ttl) := by
  constructor
  · intro h
    unfold create_whisp
    rw [if_pos h]
  · intro h1 h2
    have hc : ¬ (ttl < 1 ∨ ttl > 10080) := by omega
    unfold create_whisp
    rw [if_neg hc]
    cases file with
    | none => exact ⟨_, _, rfl, rfl⟩
    | some f =>
      have hf := hsize f rfl
      simp only
      rw [if_neg (by omega)]
      exact ⟨_, _, rfl, rfl⟩

theorem C4_create_ttl_witness :
    create_whisp 0 "i" 7 "hello" 20000 none none ⟨[], []⟩ =
      (.error .InvalidTTL, ⟨[], []⟩) ∧
    ∃ w st₁, create_whisp 0 "i" 7 "hello" 60 none none ⟨[], []⟩ = (.ok w, st₁) ∧
      w.expires_at = 0 + 60 :=
  ⟨(C4_create_ttl 0 "i" 7 "hello" 20000 none none ⟨[], []⟩
      (fun _ h => nomatch h)).1 (by decide),
   (C4_create_ttl 0 "i" 7 "hello" 60 none none ⟨[], []⟩
      (fun _ h => nomatch h)).2 (by decide) (by decide)⟩

/-! ### C2 — text round trip -/

/-- C2: a text secret created with payload `P` (valid TTL; the password gate
passes at fetch, i.e. the passphrase is absent or correctly supplied) is
returned by the first FetchMetadata, whose returned state has the row
deleted, and every subsequent FetchMetadata on the same id fails
`NotFound`. -/
theorem C2_text_roundtrip (now₁ now₂ : Int) (wid : String) (key : Nat)
    (P : String) (ttl : Int) (password fetchPw : Option String) (st : St)
    (httl₁ : 1 ≤ ttl) (httl₂ : ttl ≤ 10080)
    (hexp : ¬ now₁ + ttl < now₂)
    (hpw : passwordGateFails (hashOpt password) fetchPw = false) :
    ∃ st₁ st₂,
      create_whisp now₁ wid key P ttl password none st =
        (.ok ⟨wid, .raw P, false, none, hashOpt password, now₁ + ttl⟩, st₁) ∧
      get_whisp now₂ wid fetchPw st₁ =
        (.ok ⟨wid, .raw P, false, now₁ + ttl⟩, st₂) ∧
      dbLookup st₂.db wid = none ∧
      (∀ now₃ pw₃, (get_whisp now₃ wid pw₃ st₂).1 = .error .NotFound) := by
  have hc : ¬ (ttl < 1 ∨ ttl > 10080) := by omega
  refine ⟨⟨⟨wid, .raw P, false, none, hashOpt password, now₁ + ttl⟩ :: st.db, st.fs⟩,
    ⟨dbDelete (⟨wid, .raw P, false, none, hashOpt password, now₁ + ttl⟩ :: st.db) wid,
      st.fs⟩, ?_, ?_, ?_, ?_⟩
  · unfold create_whisp
    rw [if_neg hc]
  · simp [get_whisp, dbLookup, List.find?, hexp, hpw, whispRead]
  · exact dbLookup_dbDelete_self _ _
  · intro now₃ pw₃
    unfold get_whisp
    rw [dbLookup_dbDelete_self]

theorem C2_text_roundtrip_witness :
    ∃ st₁ st₂,
      create_whisp 0 "i" 7 "hello" 60 none none ⟨[], []⟩ =
        (.ok ⟨"i", .raw "hello", false, none, hashOpt none, 0 + 60⟩, st₁) ∧
      get_whisp 10 "i" none st₁ =
        (.ok ⟨"i", .raw "hello", false, 0 + 60⟩, st₂) ∧
      dbLookup st₂.db "i" = none ∧
      (∀ now₃ pw₃, (get_whisp now₃ "i" pw₃ st₂).1 = .error .NotFound) :=
  C2_text_roundtrip 0 10 "i" 7 "hello" 60 none none ⟨[], []⟩
    (by decide) (by decide) (by decide) rfl

/-! ### C6 — expiry -/

/-- C6: a secret whose `expires_at` is strictly before `now` is unreachable:
both FetchMetadata and FetchFile fail `NotFound` even before any sweep runs;
and the sweep leaves exactly the rows with `expires_at ≥ now` (every expired
row is deleted, nothing else is). -/
theorem C6_expiry (now : Int) (wid : String) (st : St) (w : Whisp)
    (hw : dbLookup st.db wid = some w) (hexp : w.expires_at < now) :
    (∀ pw, (get_whisp now wid pw st).1 = .error .NotFound) ∧
    (∀ pw, (get_whisp_file now wid pw st).1 = .error .NotFound) ∧
    (∀ v, v ∈ (cleanup_expired_whisps now st).db ↔
      v ∈ st.db ∧ ¬ v.expires_at < now) := by
  refine ⟨?_, ?_, ?_⟩
  · intro pw
    simp [get_whisp, hw, hexp]
  · intro pw
    obtain ⟨wi, wp, wf, wfp, wph, we⟩ := w
    cases wf <;> rcases wfp with _ | fp <;> simp_all [get_whisp_file]
  · intro v
    simp [cleanup_expired_whisps, List.mem_filter]

theorem C6_expiry_witness :
    (∀ pw, (get_whisp 5 "i" pw ⟨[⟨"i", .raw "s", false, none, none, 0⟩], []⟩).1
      = .error .NotFound) ∧
    (∀ pw, (get_whisp_file 5 "i" pw ⟨[⟨"i", .raw "s", false, none, none, 0⟩], []⟩).1
      = .error .NotFound) ∧
    (∀ v, v ∈ (cleanup_expired_whisps 5
        ⟨[⟨"i", .raw "s", false, none, none, 0⟩], []⟩).db ↔
      v ∈ [(⟨"i", .raw "s", false, none, none, 0⟩ : Whisp)] ∧ ¬ v.expires_at < 5) :=
  C6_expiry 5 "i" ⟨[⟨"i", .raw "s", false, none, none, 0⟩], []⟩
    ⟨"i", .raw "s", false, none, none, 0⟩ rfl (by decide)

/-! ### C3 — file round trip -/

/-- C3: a file secret created from bytes `B` within the size limit can have
its metadata fetched without any state change (hence any number of times);
the first FetchFile returns exactly `B` (decrypt after encrypt is the
identity) and deletes the row; every subsequent FetchFile on the same id
fails `NotFound`. -/
theorem C3_file_roundtrip (now₁ now₂ : Int) (wid : String) (key : Nat)
    (fname : String) (upname : Option String) (B : Bytes) (ttl : Int)
    (password fetchPw : Option String) (st : St)
    (httl₁ : 1 ≤ ttl) (httl₂ : ttl ≤ 10080)
    (hsize : B.length ≤ MAX_FILE_SIZE)
    (hexp : ¬ now₁ + ttl < now₂)
    (hpw : passwordGateFails (hashOpt password) fetchPw = false) :
    ∃ w st₁,
      create_whisp now₁ wid key fname ttl password (some ⟨upname, B⟩) st =
        (.ok w, st₁) ∧
      get_whisp now₂ wid fetchPw st₁ = (.ok (whispRead w), st₁) ∧
      (get_whisp_file now₂ wid fetchPw st₁).1 = .ok ⟨B, fname⟩ ∧
      dbLookup ((get_whisp_file now₂ wid fetchPw st₁).2).db wid = none ∧
      (∀ now₃ pw₃,
        (get_whisp_file now₃ wid pw₃ ((get_whisp_file now₂ wid fetchPw st₁).2)).1 =
          .error .NotFound) := by
  have hc : ¬ (ttl < 1 ∨ ttl > 10080) := by omega
  have hsz : ¬ (B.length > MAX_FILE_SIZE) := by omega
  refine ⟨⟨wid, .meta (some fname) (some key), true, some (blobPathFor wid upname),
      hashOpt password, now₁ + ttl⟩,
    ⟨⟨wid, .meta (some fname) (some key), true, some (blobPathFor wid upname),
        hashOpt password, now₁ + ttl⟩ :: st.db,
      fsWrite (fsWrite st.fs (blobPathFor wid upname) (.plain []))
        (blobPathFor wid upname) (fernetEncrypt key B)⟩, ?_, ?_, ?_, ?_, ?_⟩
  all_goals
    have hrun : get_whisp_file now₂ wid fetchPw
        ⟨(⟨wid, .meta (some fname) (some key), true, some (blobPathFor wid upname),
            hashOpt password, now₁ + ttl⟩ : Whisp) :: st.db,
          fsWrite (fsWrite st.fs (blobPathFor wid upname) (.plain []))
            (blobPathFor wid upname) (fernetEncrypt key B)⟩ =
        (.ok ⟨B, fname⟩,
          ⟨dbDelete ((⟨wid, .meta (some fname) (some key), true,
              some (blobPathFor wid upname), hashOpt password, now₁ + ttl⟩ : Whisp)
              :: st.db) wid,
            fsWrite (fsWrite st.fs (blobPathFor wid upname) (.plain []))
              (blobPathFor wid upname) (fernetEncrypt key B)⟩) := by
      simp [get_whisp_file, dbLookup, List.find?, hexp, hpw, fsLookup_fsWrite_self,
        fernetEncrypt, fernetDecrypt, headerFilename]
  · simp [create_whisp, hc, hsz]
  · simp [get_whisp, dbLookup, List.find?, hexp, hpw, whispRead]
  · rw [hrun]
  · rw [hrun]
    exact dbLookup_dbDelete_self _ _
  · intro now₃ pw₃
    rw [hrun]
    simp [get_whisp_file, dbLookup_dbDelete_self]

theorem C3_file_roundtrip_witness :
    ∃ w st₁,
      create_whisp 0 "i" 7 "doc.pdf" 60 none (some ⟨some "f.txt", [1, 2, 3]⟩)
        ⟨[], []⟩ = (.ok w, st₁) ∧
      get_whisp 10 "i" none st₁ = (.ok (whispRead w), st₁) ∧
      (get_whisp_file 10 "i" none st₁).1 = .ok ⟨[1, 2, 3], "doc.pdf"⟩ ∧
      dbLookup ((get_whisp_file 10 "i" none st₁).2).db "i" = none ∧
      (∀ now₃ pw₃,
        (get_whisp_file now₃ "i" pw₃ ((get_whisp_file 10 "i" none st₁).2)).1 =
          .error .NotFound) :=
  C3_file_roundtrip 0 10 "i" 7 "doc.pdf" (some "f.txt") [1, 2, 3] 60 none none
    ⟨[], []⟩ (by decide) (by decide) (by decide) (by decide) rfl

/-! ### C7 — oversized upload -/

/-- C7: an upload whose content exceeds `MAX_FILE_SIZE` fails
`PayloadTooLarge`; afterwards no blob (complete or partial) is present at the
blob path, no row was added, and every other path of the store is
untouched. -/
theorem C7_oversized_upload (now : Int) (wid : String) (key : Nat)
    (fname : String) (ttl : Int) (password : Option String) (f : FileUpload)
    (st : St)
    (httl₁ : 1 ≤ ttl) (httl₂ : ttl ≤ 10080)
    (hsize : f.content.length > MAX_FILE_SIZE) :
    create_whisp now wid key fname ttl password (some f) st =
      (.error .PayloadTooLarge,
        ⟨st.db, fsRemove st.fs (blobPathFor wid f.filename)⟩) ∧
    fsExists (create_whisp now wid key fname ttl password (some f) st).2.fs
      (blobPathFor wid f.filename) = false ∧
    (∀ q, q ≠ blobPathFor wid f.filename →
      fsLookup (create_whisp now wid key fname ttl password (some f) st).2.fs q =
        fsLookup st.fs q) := by
  have hc : ¬ (ttl < 1 ∨ ttl > 10080) := by omega
  have h1 : create_whisp now wid key fname ttl password (some f) st =
      (.error .PayloadTooLarge,
        ⟨st.db, fsRemove st.fs (blobPathFor wid f.filename)⟩) := by
    simp [create_whisp, hc, hsize, fsRemove_fsWrite]
  refine ⟨h1, ?_, ?_⟩
  · rw [h1]
    simp [fsExists, fsLookup_fsRemove_self]
  · intro q hq
    rw [h1]
    exact fsLookup_fsRemove_ne _ _ _ hq

theorem C7_oversized_upload_witness :
    create_whisp 0 "i" 7 "big" 60 none
        (some ⟨some "a", List.replicate (MAX_FILE_SIZE + 1) 0⟩) ⟨[], []⟩ =
      (.error .PayloadTooLarge,
        ⟨[], fsRemove [] (blobPathFor "i" (some "a"))⟩) ∧
    fsExists (create_whisp 0 "i" 7 "big" 60 none
        (some ⟨some "a", List.replicate (MAX_FILE_SIZE + 1) 0⟩) ⟨[], []⟩).2.fs
      (blobPathFor "i" (some "a")) = false ∧
    (∀ q, q ≠ blobPathFor "i" (some "a") →
      fsLookup (create_whisp 0 "i" 7 "big" 60 none
          (some ⟨some "a", List.replicate (MAX_FILE_SIZE + 1) 0⟩) ⟨[], []⟩).2.fs q =
        fsLookup [] q) :=
  C7_oversized_upload 0 "i" 7 "big" 60 none
    ⟨some "a", List.replicate (MAX_FILE_SIZE + 1) 0⟩ ⟨[], []⟩
    (by decide) (by decide) (by simp [List.length_replicate])

/-! ### C8 — tampered blob -/

/-- C8: when the stored blob fails Fernet authentication under the embedded
key (tampered or corrupt ciphertext), FetchFile fails `DecryptionError` (the
propagated `InvalidToken`, surfaced as a 500-class response rather than a
crash of the service) and the state — in particular the metadata row — is
unchanged. -/
theorem C8_tampered_blob (now : Int) (wid : String) (pw : Option String)
    (st : St) (w : Whisp) (fp : String) (fn : Option String) (k : Nat) (b : Blob)
    (hw : dbLookup st.db wid = some w) (hfile : w.is_file = true)
    (hfp : w.file_path = some fp) (hexp : ¬ w.expires_at < now)
    (hblob : fsLookup st.fs fp = some b)
    (hpw : passwordGateFails w.password_hash pw = false)
    (hpayload : w.encrypted_payload = .meta fn (some k))
    (htamper : fernetDecrypt k b = none) :
    get_whisp_file now wid pw st = (.error .DecryptionError, st) := by
  obtain ⟨wi, wp, wf, wfp, wph, we⟩ := w
  simp_all [get_whisp_file]

theorem C8_tampered_blob_witness :
    get_whisp_file 0 "i" none
        ⟨[⟨"i", .meta (some "x") (some 5), true, some "p", none, 100⟩],
          [("p", .plain [9])]⟩ =
      (.error .DecryptionError,
        ⟨[⟨"i", .meta (some "x") (some 5), true, some "p", none, 100⟩],
          [("p", .plain [9])]⟩) :=
  C8_tampered_blob 0 "i" none _ _ "p" (some "x") 5 (.plain [9])
    rfl rfl rfl (by decide) rfl rfl rfl rfl

/-! ### C5 — password gate -/

/-- C5 as stated is false: for a file secret created with passphrase "pw",
FetchMetadata with the correct passphrase succeeds yet does NOT consume the
secret (the row is still present afterwards), while the claim says both
fetch operations consume on success. -/
theorem C5_password_gate_counterexample :
    (get_whisp 1 "i" (some "pw")
        ((create_whisp 0 "i" 7 "fn" 60 (some "pw")
          (some ⟨some "f", [1]⟩) ⟨[], []⟩).2)).1 =
      .ok ⟨"i", .meta (some "fn") (some 7), true, 60⟩ ∧
    (dbLookup ((get_whisp 1 "i" (some "pw")
        ((create_whisp 0 "i" 7 "fn" 60 (some "pw")
          (some ⟨some "f", [1]⟩) ⟨[], []⟩).2)).2).db "i").isSome = true :=
  ⟨rfl, rfl⟩

/-- C5 amended: for a secret created with a (non-empty) passphrase `P`,
fetching without a password or with a wrong password fails `Unauthorized`
and leaves the state (row and blob) unchanged; with the correct `P` the
fetches succeed, FetchMetadata consuming exactly the text secrets (a file
secret's row survives until FetchFile) and FetchFile consuming the file
secret. -/
theorem C5_password_gate_amended (now₁ now₂ : Int) (wid : String) (key : Nat)
    (payload P q : String) (ttl : Int) (B : Bytes) (upname : Option String)
    (st : St)
    (httl₁ : 1 ≤ ttl) (httl₂ : ttl ≤ 10080) (hP : P ≠ "") (hq : q ≠ P)
    (hsize : B.length ≤ MAX_FILE_SIZE) (hexp : ¬ now₁ + ttl < now₂) :
    (∃ w st₁,
      create_whisp now₁ wid key payload ttl (some P) none st = (.ok w, st₁) ∧
      w.password_hash = some (get_password_hash P) ∧
      get_whisp now₂ wid none st₁ = (.error .Unauthorized, st₁) ∧
      get_whisp now₂ wid (some q) st₁ = (.error .Unauthorized, st₁) ∧
      (get_whisp now₂ wid (some P) st₁).1 = .ok (whispRead w) ∧
      dbLookup ((get_whisp now₂ wid (some P) st₁).2).db wid = none) ∧
    (∃ w st₁,
      create_whisp now₁ wid key payload ttl (some P) (some ⟨upname, B⟩) st =
        (.ok w, st₁) ∧
      w.password_hash = some (get_password_hash P) ∧
      get_whisp now₂ wid none st₁ = (.error .Unauthorized, st₁) ∧
      get_whisp now₂ wid (some q) st₁ = (.error .Unauthorized, st₁) ∧
      get_whisp_file now₂ wid none st₁ = (.error .Unauthorized, st₁) ∧
      get_whisp_file now₂ wid (some q) st₁ = (.error .Unauthorized, st₁) ∧
      get_whisp now₂ wid (some P) st₁ = (.ok (whispRead w), st₁) ∧
      (get_whisp_file now₂ wid (some P) st₁).1 = .ok ⟨B, payload⟩ ∧
      dbLookup ((get_whisp_file now₂ wid (some P) st₁).2).db wid = none) := by
  have hc : ¬ (ttl < 1 ∨ ttl > 10080) := by omega
  have hsz : ¬ (B.length > MAX_FILE_SIZE) := by omega
  have hnone : passwordGateFails (hashOpt (some P)) none = true := by
    simp [passwordGateFails, hashOpt, hP]
  have hwrong : passwordGateFails (hashOpt (some P)) (some q) = true := by
    simp [passwordGateFails, hashOpt, hP, verify_password, get_password_hash, hq]
  have hok : passwordGateFails (hashOpt (some P)) (some P) = false := by
    simp [passwordGateFails, hashOpt, hP, verify_password, get_password_hash]
  constructor
  · refine ⟨⟨wid, .raw payload, false, none, hashOpt (some P), now₁ + ttl⟩,
      ⟨⟨wid, .raw payload, false, none, hashOpt (some P), now₁ + ttl⟩ :: st.db,
        st.fs⟩, ?_, ?_, ?_, ?_, ?_, ?_⟩
    · unfold create_whisp
      rw [if_neg hc]
    · simp [hashOpt, hP]
    · simp [get_whisp, dbLookup, List.find?, hexp, hnone]
    · simp [get_whisp, dbLookup, List.find?, hexp, hwrong]
    · simp [get_whisp, dbLookup, List.find?, hexp, hok, whispRead]
    · have hrun : get_whisp now₂ wid (some P)
          ⟨(⟨wid, .raw payload, false, none, hashOpt (some P), now₁ + ttl⟩ : Whisp)
            :: st.db, st.fs⟩ =
          (.ok ⟨wid, .raw payload, false, now₁ + ttl⟩,
            ⟨dbDelete ((⟨wid, .raw payload, false, none, hashOpt (some P),
              now₁ + ttl⟩ : Whisp) :: st.db) wid, st.fs⟩) := by
        simp [get_whisp, dbLookup, List.find?, hexp, hok, whispRead]
      rw [hrun]
      exact dbLookup_dbDelete_self _ _
  · refine ⟨⟨wid, .meta (some payload) (some key), true,
      some (blobPathFor wid upname), hashOpt (some P), now₁ + ttl⟩,
      ⟨⟨wid, .meta (some payload) (some key), true, some (blobPathFor wid upname),
          hashOpt (some P), now₁ + ttl⟩ :: st.db,
        fsWrite (fsWrite st.fs (blobPathFor wid upname) (.plain []))
          (blobPathFor wid upname) (fernetEncrypt key B)⟩,
      ?_, ?_, ?_, ?_, ?_, ?_, ?_, ?_, ?_⟩
    · simp [create_whisp, hc, hsz]
    · simp [hashOpt, hP]
    · simp [get_whisp, dbLookup, List.find?, hexp, hnone]
    · simp [get_whisp, dbLookup, List.find?, hexp, hwrong]
    · simp [get_whisp_file, dbLookup, List.find?, hexp, hnone,
        fsLookup_fsWrite_self, fernetEncrypt]
    · simp [get_whisp_file, dbLookup, List.find?, hexp, hwrong,
        fsLookup_fsWrite_self, fernetEncrypt]
    · simp [get_whisp, dbLookup, List.find?, hexp, hok, whispRead]
    · simp [get_whisp_file, dbLookup, List.find?, hexp, hok,
        fsLookup_fsWrite_self, fernetEncrypt, fernetDecrypt, headerFilename]
    · have hrun : get_whisp_file now₂ wid (some P)
          ⟨(⟨wid, .meta (some payload) (some key), true,
              some (blobPathFor wid upname), hashOpt (some P), now₁ + ttl⟩ : Whisp)
            :: st.db,
            fsWrite (fsWrite st.fs (blobPathFor wid upname) (.plain []))
              (blobPathFor wid upname) (fernetEncrypt key B)⟩ =
          (.ok ⟨B, payload⟩,
            ⟨dbDelete ((⟨wid, .meta (some payload) (some key), true,
                some (blobPathFor wid upname), hashOpt (some P),
                now₁ + ttl⟩ : Whisp) :: st.db) wid,
              fsWrite (fsWrite st.fs (blobPathFor wid upname) (.plain []))
                (blobPathFor wid upname) (fernetEncrypt key B)⟩) := by
        simp [get_whisp_file, dbLookup, List.find?, hexp, hok,
          fsLookup_fsWrite_self, fernetEncrypt, fernetDecrypt, headerFilename]
      rw [hrun]
      exact dbLookup_dbDelete_self _ _

theorem C5_password_gate_amended_witness :
    (∃ w st₁,
      create_whisp 0 "i" 7 "fn" 60 (some "pw") none ⟨[], []⟩ = (.ok w, st₁) ∧
      w.password_hash = some (get_password_hash "pw") ∧
      get_whisp 1 "i" none st₁ = (.error .Unauthorized, st₁) ∧
      get_whisp 1 "i" (some "zz") st₁ = (.error .Unauthorized, st₁) ∧
      (get_whisp 1 "i" (some "pw") st₁).1 = .ok (whispRead w) ∧
      dbLookup ((get_whisp 1 "i" (some "pw") st₁).2).db "i" = none) ∧
    (∃ w st₁,
      create_whisp 0 "i" 7 "fn" 60 (some "pw") (some ⟨some "f", [1]⟩) ⟨[], []⟩ =
        (.ok w, st₁) ∧
      w.password_hash = some (get_password_hash "pw") ∧
      get_whisp 1 "i" none st₁ = (.error .Unauthorized, st₁) ∧
      get_whisp 1 "i" (some "zz") st₁ = (.error .Unauthorized, st₁) ∧
      get_whisp_file 1 "i" none st₁ = (.error .Unauthorized, st₁) ∧
      get_whisp_file 1 "i" (some "zz") st₁ = (.error .Unauthorized, st₁) ∧
      get_whisp 1 "i" (some "pw") st₁ = (.ok (whispRead w), st₁) ∧
      (get_whisp_file 1 "i" (some "pw") st₁).1 = .ok ⟨[1], "fn"⟩ ∧
      dbLookup ((get_whisp_file 1 "i" (some "pw") st₁).2).db "i" = none) :=
  C5_password_gate_amended 0 1 "i" 7 "fn" "pw" "zz" 60 [1] (some "f") ⟨[], []⟩
    (by decide) (by decide) (by decide) (by decide) (by decide) (by decide)

/-! ### C9 — filename sanitization -/

theorem basenameAux_no_slash (l : List Char) : '/' ∉ basenameAux l := by
  unfold basenameAux
  suffices h : ∀ acc : List Char, '/' ∉ acc →
      '/' ∉ l.foldl (fun acc c => if c = '/' then [] else acc ++ [c]) acc by
    exact h [] (List.not_mem_nil _)
  induction l with
  | nil => intro acc hacc; simpa using hacc
  | cons c l ih =>
    intro acc hacc
    simp only [List.foldl_cons]
    by_cases hc : c = '/'
    · rw [if_pos hc]
      exact ih [] (List.not_mem_nil _)
    · rw [if_neg hc]
      refine ih (acc ++ [c]) ?_
      intro hmem
      rcases List.mem_append.mp hmem with h | h
      · exact hacc h
      · exact hc (List.mem_singleton.mp h).symm

theorem basename_no_slash (s : String) : '/' ∉ (basename s).data :=
  basenameAux_no_slash s.data

/-- The sanitization property the spec claims of the stored name: no path
separator and no parent-directory component survives (a separator-free name
is a single component, so the only possible parent-directory component is
the name `..` itself). -/
def strippedOfTraversal (s : String) : Prop :=
  '/' ∉ s.data ∧ s ≠ ".."

/-- C9 as stated is false: the sanitization is `os.path.basename`, which
keeps a trailing parent-directory component — a client filename of `..`
sanitizes to `..` itself, so not every parent-directory component is
stripped. -/
theorem C9_sanitize_counterexample :
    safeFilename (some "..") = ".." ∧
    ¬ strippedOfTraversal (safeFilename (some "..")) := by
  refine ⟨rfl, fun h => h.2 rfl⟩

/-- C9 amended: the blob reference is derived deterministically from the
secret id and the basename of the supplied name; the basename contains no
path separator, and although a trailing `..` component can survive it, the
full relative name `id_name.enc` is a single path component that can never
be empty, `.` or `..` — so the blob path is always a direct child of the
storage directory. -/
theorem C9_sanitize_amended (wid : String) (fn : Option String)
    (hwid : '/' ∉ wid.data) :
    '/' ∉ (safeFilename fn).data ∧
    blobPathFor wid fn = STORAGE_DIR ++ "/" ++ blobName wid fn ∧
    '/' ∉ (blobName wid fn).data ∧
    blobName wid fn ≠ "" ∧ blobName wid fn ≠ "." ∧ blobName wid fn ≠ ".." := by
  have hsafe : '/' ∉ (safeFilename fn).data := by
    unfold safeFilename
    exact basename_no_slash _
  have hlen : 5 ≤ (blobName wid fn).length := by
    unfold blobName
    rw [String.length_append, String.length_append, String.length_append]
    have h1 : ("_" : String).length = 1 := rfl
    have h2 : (".enc" : String).length = 4 := rfl
    omega
  have hne : ∀ t : String, t.length < 5 → blobName wid fn ≠ t := by
    intro t ht h
    rw [h] at hlen
    omega
  refine ⟨hsafe, rfl, ?_, hne "" (by decide), hne "." (by decide),
    hne ".." (by decide)⟩
  unfold blobName
  intro hmem
  simp only [String.data_append, List.mem_append] at hmem
  rcases hmem with ((h | h) | h) | h
  · exact hwid h
  · exact absurd h (by decide)
  · exact hsafe h
  · exact absurd h (by decide)

theorem C9_sanitize_amended_witness :
    ('/' ∉ ("abc" : String).data) ∧
    ('/' ∉ (safeFilename (some "../../etc/passwd")).data ∧
      blobPathFor "abc" (some "../../etc/passwd") =
        STORAGE_DIR ++ "/" ++ blobName "abc" (some "../../etc/passwd") ∧
      '/' ∉ (blobName "abc" (some "../../etc/passwd")).data ∧
      blobName "abc" (some "../../etc/passwd") ≠ "" ∧
      blobName "abc" (some "../../etc/passwd") ≠ "." ∧
      blobName "abc" (some "../../etc/passwd") ≠ "..") :=
  ⟨by decide, C9_sanitize_amended "abc" (some "../../etc/passwd") (by decide)⟩

/-! ### C10 — file fetch without an embedded key -/

/-- The "key" field `json.loads` extracts from a stored payload, if any. -/
def payloadKey : Payload → Option Nat
  | .raw _ => none
  | .meta _ k => k

/-- The attachment filename `get_whisp_file` uses when no key is embedded:
`downloaded_file` when the payload fails to parse as JSON, otherwise the
metadata's "filename" field (rendered `None` when absent). -/
def fallbackFilename : Payload → String
  | .raw _ => "downloaded_file"
  | .meta fn _ => headerFilename fn

/-- C10 as stated is false: a file secret whose payload parses as JSON but
has no "key" field is served verbatim under the metadata's "filename" field
(here `x`), not under `downloaded_file`. -/
theorem C10_legacy_file_counterexample :
    (get_whisp_file 0 "i" none
        ⟨[⟨"i", .meta (some "x") none, true, some "p", none, 100⟩],
          [("p", .plain [1, 2, 3])]⟩).1 =
      .ok ⟨[1, 2, 3], "x"⟩ ∧
    ("x" : String) ≠ "downloaded_file" :=
  ⟨rfl, by decide⟩

/-- C10 amended: for a file secret whose stored payload carries no "key"
field, once the existence, blob-presence and password checks pass, FetchFile
returns the stored blob bytes verbatim (no decryption) and deletes the row;
the attachment filename is `downloaded_file` when the payload does not parse
as JSON, and otherwise the payload's "filename" field. -/
theorem C10_legacy_file_amended (now : Int) (wid : String) (pw : Option String)
    (st : St) (w : Whisp) (fp : String) (b : Blob)
    (hw : dbLookup st.db wid = some w) (hfile : w.is_file = true)
    (hfp : w.file_path = some fp) (hexp : ¬ w.expires_at < now)
    (hblob : fsLookup st.fs fp = some b)
    (hpw : passwordGateFails w.password_hash pw = false)
    (hnokey : payloadKey w.encrypted_payload = none) :
    get_whisp_file now wid pw st =
      (.ok ⟨blobRawBytes b, fallbackFilename w.encrypted_payload⟩,
        ⟨dbDelete st.db wid, st.fs⟩) := by
  obtain ⟨wi, wp, wf, wfp, wph, we⟩ := w
  cases wp with
  | raw s => simp_all [get_whisp_file, payloadKey, fallbackFilename]
  | meta fn k =>
    cases k with
    | none => simp_all [get_whisp_file, payloadKey, fallbackFilename]
    | some k => simp [payloadKey] at hnokey

theorem C10_legacy_file_amended_witness :
    get_whisp_file 0 "j" none
        ⟨[⟨"j", .raw "gibberish", true, some "q", none, 100⟩],
          [("q", .plain [4, 5])]⟩ =
      (.ok ⟨[4, 5], "downloaded_file"⟩,
        ⟨dbDelete [⟨"j", .raw "gibberish", true, some "q", none, 100⟩] "j",
          [("q", .plain [4, 5])]⟩) :=
  C10_legacy_file_amended 0 "j" none
    ⟨[⟨"j", .raw "gibberish", true, some "q", none, 100⟩], [("q", .plain [4, 5])]⟩
    ⟨"j", .raw "gibberish", true, some "q", none, 100⟩ "q" (.plain [4, 5])
    rfl rfl rfl (by decide) rfl rfl rfl
